import Mathlib

/-!
Verification of the taskbar docking subsystem of `bar-minimal-tools`
(`src-tauri/src/services/appbar.rs`, `src-tauri/src/commands/monitor.rs`,
and the watcher loop in `src-tauri/src/lib.rs`).

The Windows shell and window system are modelled as oracles (structures of
response functions); each embedded operation returns its `Result`, the updated
process state, and the list of OS calls it issued, in order.  Machine integers
(`i32`/`isize`) are modelled as `Int`, `u32`/`usize` as `Nat`; none of the
verified paths can overflow them.  The `f64` field `scale_factor` of
`MonitorInfo` is irrelevant to every claim and omitted.
-/

namespace BarDock

/-- A Windows `RECT` (`left`, `top`, `right`, `bottom`, all `i32`). -/
structure Rect where
  left : Int
  top : Int
  right : Int
  bottom : Int
  deriving DecidableEq, Repr

/-- One OS call issued by the docking subsystem, in the order the code makes
them.  `abmNew` records the rectangle requested and the shell's return value. -/
inductive OSEvent where
  | sleep (ms : Nat)
  | setStyle
  | abmNew (rc : Rect) (result : Nat)
  | abmRemove
  | abmQueryPos (rc : Rect)
  | abmSetPos (rc : Rect) (result : Nat)
  | setWindowPos (x y w h : Int)
  | winSetPosition (x y : Int)
  | winSetSize (w h : Nat)
  | winHide
  | winShow
  deriving DecidableEq, Repr

/-- The process-global appbar state of `appbar.rs`: the `APPBAR_REGISTERED`
atomic flag and whether the `APPBAR_LOCK` mutex is poisoned. -/
structure AppbarState where
  registered : Bool
  lockPoisoned : Bool
  deriving DecidableEq, Repr

/-- Oracle for the shell's responses: `abmNew k` is the return value of the
`k`-th `ABM_NEW` attempt inside one retry loop; `queryPos` is the rectangle
adjustment performed by `ABM_QUERYPOS`; `setPos` returns the `ABM_SETPOS`
return value together with the (possibly adjusted) rectangle. -/
structure ShellOracle where
  abmNew : Nat → Nat
  queryPos : Rect → Rect
  setPos : Rect → Nat × Rect

/-- The `ABM_NEW` retry loop of `register_appbar` (appbar.rs lines 118-154):
iterate over the backoff delays, sleeping first when the delay is positive,
then attempting `ABM_NEW`; on failure issue a best-effort `ABM_REMOVE` and
continue.  Returns whether an attempt succeeded and the calls issued. -/
def attemptLoop (osc : ShellOracle) (rc : Rect) : Nat → List Nat → Bool × List OSEvent
  | _, [] => (false, [])
  | attempt, delay :: rest =>
    let pre : List OSEvent := if delay > 0 then [.sleep delay] else []
    let result := osc.abmNew attempt
    if result ≠ 0 then
      (true, pre ++ [.abmNew rc result])
    else
      let out := attemptLoop osc rc (attempt + 1) rest
      (out.1, pre ++ [.abmNew rc 0, .abmRemove] ++ out.2)

/-- The backoff schedule of `register_appbar` (`backoff_ms` in appbar.rs). -/
def backoffMs : List Nat := [0, 80, 200, 400, 800]

/-- Embedding of `register_appbar` (appbar.rs lines 68-209).  Locks `APPBAR_LOCK`
(propagating an error when poisoned), unregisters first if the flag says a
registration is active (plus an 80 ms settle sleep), sets the toolwindow
style, runs the `ABM_NEW` retry loop over `backoffMs`, and on success queries
the granted position, fixes the bottom edge to `top + height`, issues
`ABM_SETPOS` and `SetWindowPos`, and marks the flag registered. -/
def register_appbar (st : AppbarState) (osc : ShellOracle)
    (_hwnd x y width height : Int) :
    Except String Unit × AppbarState × List OSEvent :=
  if st.lockPoisoned then
    (.error "Failed to lock APPBAR_LOCK", st, [])
  else
    let preEvents : List OSEvent :=
      if st.registered then [.abmRemove, .sleep 80] else []
    let rc : Rect := ⟨x, y, x + width, y + height⟩
    let loopOut := attemptLoop osc rc 0 backoffMs
    let evs := preEvents ++ [OSEvent.setStyle] ++ loopOut.2
    if ¬ loopOut.1 then
      (.error "Failed to register AppBar", { st with registered := false }, evs)
    else
      let rc1 := osc.queryPos rc
      let rc2 := { rc1 with bottom := rc1.top + height }
      let sp := osc.setPos rc2
      let rc3 := sp.2
      (.ok (), { st with registered := true },
       evs ++ [.abmQueryPos rc, .abmSetPos rc2 sp.1,
               .setWindowPos rc3.left rc3.top (rc3.right - rc3.left)
                 (rc3.bottom - rc3.top)])

/-- Embedding of `unregister_appbar` (appbar.rs lines 212-227).  Early-returns success
without touching the lock or the shell when the registered flag is already
false; otherwise locks (propagating an error when poisoned) and issues an
`ABM_REMOVE`, clearing the flag regardless of the shell's return value. -/
def unregister_appbar (st : AppbarState) (_hwnd : Int) :
    Except String Unit × AppbarState × List OSEvent :=
  if ¬ st.registered then
    (.ok (), st, [])
  else if st.lockPoisoned then
    (.error "Failed to lock APPBAR_LOCK", st, [])
  else
    (.ok (), { st with registered := false }, [.abmRemove])

/-- Embedding of `update_appbar_position` (appbar.rs lines 230-294).  Delegates to
`register_appbar` when no registration is believed active; otherwise performs
an in-place `ABM_QUERYPOS`/`ABM_SETPOS`; a zero `ABM_SETPOS` return clears the
registered flag and falls back to a full `register_appbar` cycle, while a
nonzero return moves the window and returns success. -/
def update_appbar_position (st : AppbarState) (osc : ShellOracle)
    (hwnd x y width height : Int) :
    Except String Unit × AppbarState × List OSEvent :=
  if ¬ st.registered then
    register_appbar st osc hwnd x y width height
  else if st.lockPoisoned then
    (.error "Failed to lock APPBAR_LOCK", st, [])
  else
    let rc : Rect := ⟨x, y, x + width, y + height⟩
    let rc1 := osc.queryPos rc
    let rc2 := { rc1 with bottom := rc1.top + height }
    let sp := osc.setPos rc2
    if sp.1 = 0 then
      let out := register_appbar { st with registered := false } osc hwnd x y width height
      (out.1, out.2.1, [OSEvent.abmQueryPos rc, OSEvent.abmSetPos rc2 0] ++ out.2.2)
    else
      let rc3 := sp.2
      (.ok (), st,
       [.abmQueryPos rc, .abmSetPos rc2 sp.1,
        .setWindowPos rc3.left rc3.top (rc3.right - rc3.left) (rc3.bottom - rc3.top)])

/-! ## Monitor enumeration and resolution (`commands/monitor.rs`) -/

/-- One monitor as reported by the window system (the tauri `Monitor`):
optional name, physical position (`i32`) and size (`u32`). -/
structure RawMonitor where
  name : Option String
  posX : Int
  posY : Int
  width : Nat
  height : Nat
  deriving DecidableEq, Repr

/-- The serialized `MonitorInfo` of monitor.rs (without the `f64`
`scale_factor`, irrelevant to every claim here). -/
structure MonitorInfo where
  id : String
  name : String
  is_primary : Bool
  width : Nat
  height : Nat
  x : Int
  y : Int
  deriving DecidableEq, Repr

/-- The stable monitor id of monitor.rs lines 49-55:
`format!("{}:{}:{}:{}", x, y, width, height)`. -/
def stableId (x y : Int) (width height : Nat) : String :=
  toString x ++ ":" ++ toString y ++ ":" ++ toString width ++ ":" ++ toString height

/-- The per-monitor body of the `map` in `list_monitors_for` (monitor.rs lines
41-67): the id is the stable geometry key, the name falls back to
`"Monitor {i+1}"`, and primariness compares names with the reported primary. -/
def monitorInfoOf (primary : Option RawMonitor) (i : Nat) (m : RawMonitor) :
    MonitorInfo :=
  { id := stableId m.posX m.posY m.width m.height
    name := m.name.getD ("Monitor " ++ toString (i + 1))
    is_primary := (primary.map (fun p => p.name == m.name)).getD false
    width := m.width
    height := m.height
    x := m.posX
    y := m.posY }

/-- Index-threading helper mirroring `.iter().enumerate().map(...)`. -/
def listMonitorsAux (primary : Option RawMonitor) (i : Nat) :
    List RawMonitor → List MonitorInfo
  | [] => []
  | m :: rest => monitorInfoOf primary i m :: listMonitorsAux primary (i + 1) rest

/-- Embedding of `list_monitors_for` (monitor.rs lines 34-69) over a given enumeration and
reported primary monitor. -/
def list_monitors_for (primary : Option RawMonitor) (monitors : List RawMonitor) :
    List MonitorInfo :=
  listMonitorsAux primary 0 monitors

/-- Largest value of a 64-bit Rust `usize`. -/
def usizeMax : Nat := 2 ^ 64 - 1

/-- Rust's `str::parse::<usize>()`: an optional leading `+`, then one or more
ASCII digits, rejecting the empty digit string and values above `usize::MAX`. -/
def parseUsize (s : String) : Option Nat :=
  let cs :=
    match s.toList with
    | '+' :: rest => rest
    | cs => cs
  if cs.isEmpty then none
  else if cs.all (fun c => c.isDigit) then
    let n := cs.foldl (fun a c => a * 10 + (c.toNat - 48)) 0
    if n ≤ usizeMax then some n else none
  else none

/-- Rust's `str::strip_prefix`: the remainder of `s` after `p`, when `p`
starts `s`.  Modelled over the character lists so that it evaluates inside
the kernel. -/
def stripPfx (p s : String) : Option String :=
  if p.toList.isPrefixOf s.toList then some ⟨s.toList.drop p.toList.length⟩
  else none

/-- The monitor-selector resolution of `set_taskbar_monitor` (monitor.rs lines
110-121): exact match on the stable id first, then the legacy
`"monitor_<index>"` positional fallback, otherwise `"Monitor not found"`. -/
def resolveMonitor (monitors : List MonitorInfo) (monitor_id : String) :
    Except String MonitorInfo :=
  match monitors.find? (fun m => m.id == monitor_id) with
  | some target => .ok target
  | none =>
    match stripPfx "monitor_" monitor_id with
    | some idxStr =>
      match parseUsize idxStr with
      | some idx =>
        match monitors.get? idx with
        | some m => .ok m
        | none => .error "Monitor not found"
      | none => .error "Monitor not found"
    | none => .error "Monitor not found"

/-! ## Shared taskbar state and the monitor commands -/

/-- The `TaskbarState` of lib.rs: the bounds mutex content, the
`fullscreen_hidden` flag and the `appbar_transition` flag. -/
structure TaskbarState where
  bounds : Option (Int × Int × Nat × Nat)
  fullscreen_hidden : Bool
  appbar_transition : Bool
  deriving DecidableEq, Repr

/-- Embedding of `TransitionGuard::drop` (monitor.rs lines 92-104): runs on every exit path
of the commands that created the guard and clears `appbar_transition`. -/
def dropTransitionGuard (ts : TaskbarState) : TaskbarState :=
  { ts with appbar_transition := false }

/-- Oracle for the window-system calls made by the monitor commands: whether
the main window is found, the monitor enumeration, the results of
`set_position`/`set_size`, whether the bounds mutex lock succeeds (a poisoned
lock is silently skipped by the code), whether `window.hwnd()` succeeds, the
window's reported outer position/size, and the shell oracle used by any
nested appbar call. -/
structure CmdOracle where
  windowFound : Bool
  monitors : List MonitorInfo
  setPositionRes : Except String Unit
  setSizeRes : Except String Unit
  boundsLockOk : Bool
  hwndOk : Bool
  hwnd : Int
  outerPos : Option (Int × Int)
  outerSize : Option (Nat × Nat)
  shell : ShellOracle

/-- Embedding of `set_taskbar_monitor` (monitor.rs lines 79-180).  Sets the transition
flag, looks up the main window, resolves the selector, applies position and
size to the window, records the requested rectangle into the shared bounds
(when the bounds lock is healthy), then attempts `register_appbar`; every exit
path drops the `TransitionGuard`. -/
def set_taskbar_monitor (ts : TaskbarState) (ast : AppbarState) (o : CmdOracle)
    (monitor_id : String) (bar_height : Option Nat) :
    Except String Unit × TaskbarState × AppbarState × List OSEvent :=
  let ts := { ts with appbar_transition := true }
  if ¬ o.windowFound then
    (.error "Main window not found", dropTransitionGuard ts, ast, [])
  else
    match resolveMonitor o.monitors monitor_id with
    | .error e => (.error e, dropTransitionGuard ts, ast, [])
    | .ok target =>
      let height := bar_height.getD 28
      match o.setPositionRes with
      | .error e =>
        (.error e, dropTransitionGuard ts, ast, [.winSetPosition target.x target.y])
      | .ok _ =>
        match o.setSizeRes with
        | .error e =>
          (.error e, dropTransitionGuard ts, ast,
           [.winSetPosition target.x target.y, .winSetSize target.width height])
        | .ok _ =>
          let ts :=
            if o.boundsLockOk then
              { ts with bounds := some (target.x, target.y, target.width, height) }
            else ts
          let pre : List OSEvent :=
            [.winSetPosition target.x target.y, .winSetSize target.width height]
          if o.hwndOk then
            let out := register_appbar ast o.shell o.hwnd target.x target.y
                (Int.ofNat target.width) (Int.ofNat height)
            (out.1, dropTransitionGuard ts, out.2.1, pre ++ out.2.2)
          else
            (.ok (), dropTransitionGuard ts, ast, pre)

/-- Embedding of `preview_taskbar_height` (monitor.rs lines 197-260).  Sets the transition
flag, reads the last known bounds (falling back to the window's outer
geometry, then to `(0, 0, 800)`), resizes the window, records the new
rectangle, and only when `update_appbar` is `Some true` calls
`update_appbar_position`; every exit path drops the `TransitionGuard`. -/
def preview_taskbar_height (ts : TaskbarState) (ast : AppbarState) (o : CmdOracle)
    (bar_height : Nat) (update_appbar : Option Bool) :
    Except String Unit × TaskbarState × AppbarState × List OSEvent :=
  let ts := { ts with appbar_transition := true }
  if ¬ o.windowFound then
    (.error "Main window not found", dropTransitionGuard ts, ast, [])
  else
    let fromBounds :=
      (if o.boundsLockOk then ts.bounds else none).map
        (fun b => (b.1, b.2.1, b.2.2.1))
    let fromWindow :=
      match o.outerPos, o.outerSize with
      | some p, some s => some (p.1, p.2, s.1)
      | _, _ => none
    let xyw := (fromBounds.orElse (fun _ => fromWindow)).getD (0, 0, 800)
    let x := xyw.1
    let y := xyw.2.1
    let width := xyw.2.2
    match o.setSizeRes with
    | .error e =>
      (.error e, dropTransitionGuard ts, ast, [.winSetSize width bar_height])
    | .ok _ =>
      let ts :=
        if o.boundsLockOk then
          { ts with bounds := some (x, y, width, bar_height) }
        else ts
      let pre : List OSEvent := [.winSetSize width bar_height]
      let shouldUpdate := update_appbar.getD false
      if shouldUpdate ∧ o.hwndOk then
        let out := update_appbar_position ast o.shell o.hwnd x y
            (Int.ofNat width) (Int.ofNat bar_height)
        (out.1, dropTransitionGuard ts, out.2.1, pre ++ out.2.2)
      else
        (.ok (), dropTransitionGuard ts, ast, pre)

/-! ## The fullscreen watcher loop body (`lib.rs`) -/

/-- Oracle for one watcher poll cycle: whether `window.hwnd()` succeeds, the
result of `is_foreground_fullscreen`, the window's reported outer geometry,
the health of the bounds lock, and the shell oracle for nested appbar calls. -/
structure WatcherOracle where
  hwndOk : Bool
  hwnd : Int
  isFullscreen : Bool
  outerPos : Option (Int × Int)
  outerSize : Option (Nat × Nat)
  boundsLockOk : Bool
  shell : ShellOracle

/-- One iteration of the watcher loop body in `run` (lib.rs).  With the
transition flag set it only sleeps 200 ms and retries; otherwise it compares
the fullscreen detection against `fullscreen_hidden` and performs the
hide+unregister or restore+show+register transition, then sleeps 800 ms.
The watcher's fixed fallback height is the hard-coded `bar_height = 32`. -/
def watcherCycle (ts : TaskbarState) (ast : AppbarState) (o : WatcherOracle) :
    TaskbarState × AppbarState × List OSEvent :=
  if ts.appbar_transition then
    (ts, ast, [.sleep 200])
  else if ¬ o.hwndOk then
    (ts, ast, [.sleep 800])
  else
    let wasHidden := ts.fullscreen_hidden
    if o.isFullscreen ∧ ¬ wasHidden then
      let ts :=
        match o.outerPos, o.outerSize with
        | some p, some s =>
          if o.boundsLockOk then
            { ts with bounds := some (p.1, p.2, s.1, s.2) }
          else ts
        | _, _ => ts
      let ts := { ts with fullscreen_hidden := true }
      let out := unregister_appbar ast o.hwnd
      (ts, out.2.1, [OSEvent.winHide] ++ out.2.2 ++ [OSEvent.sleep 800])
    else if ¬ o.isFullscreen ∧ wasHidden then
      let ts := { ts with fullscreen_hidden := false }
      let fallback := o.outerSize.map (fun s => ((0 : Int), (0 : Int), s.1, s.2))
      let rect :=
        ((if o.boundsLockOk then ts.bounds else none).orElse
          (fun _ => fallback)).getD (0, 0, 800, 32)
      let x := rect.1
      let y := rect.2.1
      let w := rect.2.2.1
      let h := rect.2.2.2
      let out := register_appbar ast o.shell o.hwnd x y (Int.ofNat w) (Int.ofNat h)
      (ts, out.2.1,
       [OSEvent.winSetPosition x y, OSEvent.winSetSize w h, OSEvent.winShow]
         ++ out.2.2 ++ [OSEvent.sleep 800])
    else
      (ts, ast, [.sleep 800])

/-! ## Fullscreen detection (`is_foreground_fullscreen`, appbar.rs) -/

/-- Oracle for the window-system queries of `is_foreground_fullscreen`:
the foreground window (`none` = null), this process's id, the owning pid
reported for a window (`0` when the query fails), the parent of a window
(`none` = null / error), visibility, placement query success and `showCmd`,
the window rectangle (`none` = query error), the monitor a window is on
(`MONITOR_DEFAULTTONEAREST`, hence total), and a monitor's bounds rectangle
(`none` = `GetMonitorInfoW` failure). -/
structure FsOracle where
  fgWindow : Option Int
  currentPid : Nat
  pidOf : Int → Nat
  parent : Int → Option Int
  visible : Int → Bool
  placementOk : Int → Bool
  showCmd : Int → Nat
  rectOf : Int → Option Rect
  monitorOf : Int → Nat
  monitorRect : Nat → Option Rect

/-- The bounded ancestor walk of `is_foreground_fullscreen` (appbar.rs lines
367-388): at most 32 hops; returns `none` when the cursor is the bar's own
handle or belongs to this process (the function then returns `false`), and
otherwise the topmost ancestor reached. -/
def walkLoop (o : FsOracle) (barHwnd : Int) : Nat → Int → Option Int
  | 0, cursor => some cursor
  | fuel + 1, cursor =>
    if cursor = barHwnd then none
    else if o.pidOf cursor ≠ 0 ∧ o.pidOf cursor = o.currentPid then none
    else
      match o.parent cursor with
      | none => some cursor
      | some p => walkLoop o barHwnd fuel p

/-- The ancestor chain actually examined by the walk: the window itself
followed by its parents, cut off at the given hop bound or at a null parent. -/
def ancestorChain (o : FsOracle) : Nat → Int → List Int
  | 0, _ => []
  | fuel + 1, c =>
    c :: (match o.parent c with
          | none => []
          | some p => ancestorChain o fuel p)

/-- The value of `SW_SHOWMINIMIZED`. -/
def swShowMinimized : Nat := 2

/-- Embedding of `is_foreground_fullscreen` (appbar.rs lines 352-460): null foreground,
own-process ancestry, invisibility, minimization, rectangle query failure, a
different monitor than the bar's, or monitor-info failure all yield `false`;
otherwise the ancestor's rectangle must match the monitor bounds within the
2 px size / 1 px alignment tolerances. -/
def is_foreground_fullscreen (o : FsOracle) (barHwnd : Int) : Bool :=
  match o.fgWindow with
  | none => false
  | some fgRaw =>
    match walkLoop o barHwnd 32 fgRaw with
    | none => false
    | some fg =>
      if ¬ o.visible fg then false
      else if o.placementOk fg ∧ o.showCmd fg = swShowMinimized then false
      else
        match o.rectOf fg with
        | none => false
        | some rect =>
          let monitor := o.monitorOf fg
          let barMonitor := o.monitorOf barHwnd
          if monitor ≠ barMonitor then false
          else
            match o.monitorRect monitor with
            | none => false
            | some mrc =>
              let width := rect.right - rect.left
              let height := rect.bottom - rect.top
              let monitorWidth := mrc.right - mrc.left
              let monitorHeight := mrc.bottom - mrc.top
              decide ((width - monitorWidth).natAbs ≤ 2) &&
                decide ((height - monitorHeight).natAbs ≤ 2) &&
                decide ((rect.left - mrc.left).natAbs ≤ 1) &&
                decide ((rect.top - mrc.top).natAbs ≤ 1)

/-! ## Concrete fixtures used by witnesses and counterexamples -/

/-- A shell that fails every `ABM_NEW` attempt and otherwise echoes. -/
def oscFail : ShellOracle := ⟨fun _ => 0, id, fun r => (1, r)⟩

/-- A shell that accepts everything on the first try. -/
def oscOk : ShellOracle := ⟨fun _ => 1, id, fun r => (1, r)⟩

/-- A shell that accepts `ABM_NEW` but rejects `ABM_SETPOS` (returns 0). -/
def oscSetPosZero : ShellOracle := ⟨fun _ => 1, id, fun r => (0, r)⟩

/-- Quiescent appbar state: not registered, lock healthy. -/
def astIdle : AppbarState := ⟨false, false⟩

/-- Appbar state with an active registration and a healthy lock. -/
def astActive : AppbarState := ⟨true, false⟩

/-- A 1920x1080 primary monitor at the origin. -/
def monA : MonitorInfo := ⟨"0:0:1920:1080", "A", true, 1920, 1080, 0, 0⟩

/-- A 1280x1024 secondary monitor to the right of `monA`. -/
def monB : MonitorInfo := ⟨"1920:0:1280:1024", "B", false, 1280, 1024, 1920, 0⟩

/-- A two-monitor enumeration. -/
def monitorsW : List MonitorInfo := [monA, monB]

/-- A healthy command oracle over `monitorsW` whose shell rejects every
`ABM_NEW`. -/
def cmdFailO : CmdOracle :=
  ⟨true, monitorsW, .ok (), .ok (), true, true, 1, some (0, 0), some (1920, 32), oscFail⟩

/-- A watcher oracle reporting a fullscreen foreground window. -/
def watchO : WatcherOracle :=
  ⟨true, 1, true, some (0, 0), some (1920, 32), true, oscOk⟩

/-! ## Claims -/

/-- Claim C1: when every `ABM_NEW` attempt returns 0, `register_appbar`
performs exactly 5 attempts separated by the delays `[0, 80, 200, 400, 800]`
ms, issues a best-effort `ABM_REMOVE` after each failed attempt, and returns
the registration-failed error — the retry loop never continues past the
fifth attempt.  The conclusion fixes the complete OS-call trace. -/
theorem C1_register_retry_bound (st : AppbarState) (osc : ShellOracle)
    (hwnd x y width height : Int)
    (hlock : st.lockPoisoned = false)
    (hfail : ∀ k, k < 5 → osc.abmNew k = 0) :
    register_appbar st osc hwnd x y width height =
      (.error "Failed to register AppBar", { st with registered := false },
       (if st.registered then [OSEvent.abmRemove, OSEvent.sleep 80] else []) ++
       [OSEvent.setStyle,
        .abmNew ⟨x, y, x + width, y + height⟩ 0, .abmRemove,
        .sleep 80, .abmNew ⟨x, y, x + width, y + height⟩ 0, .abmRemove,
        .sleep 200, .abmNew ⟨x, y, x + width, y + height⟩ 0, .abmRemove,
        .sleep 400, .abmNew ⟨x, y, x + width, y + height⟩ 0, .abmRemove,
        .sleep 800, .abmNew ⟨x, y, x + width, y + height⟩ 0, .abmRemove]) := by
  have h0 := hfail 0 (by norm_num)
  have h1 := hfail 1 (by norm_num)
  have h2 := hfail 2 (by norm_num)
  have h3 := hfail 3 (by norm_num)
  have h4 := hfail 4 (by norm_num)
  simp [register_appbar, backoffMs, attemptLoop, hlock, h0, h1, h2, h3, h4]

/-- Witness for C1 at a concrete state and an always-failing shell. -/
theorem C1_register_retry_bound_witness :
    register_appbar astIdle oscFail 1 0 0 100 30 =
      (.error "Failed to register AppBar", ⟨false, false⟩,
       [OSEvent.setStyle,
        .abmNew ⟨0, 0, 100, 30⟩ 0, .abmRemove,
        .sleep 80, .abmNew ⟨0, 0, 100, 30⟩ 0, .abmRemove,
        .sleep 200, .abmNew ⟨0, 0, 100, 30⟩ 0, .abmRemove,
        .sleep 400, .abmNew ⟨0, 0, 100, 30⟩ 0, .abmRemove,
        .sleep 800, .abmNew ⟨0, 0, 100, 30⟩ 0, .abmRemove]) := by
  simpa using C1_register_retry_bound astIdle oscFail 1 0 0 100 30 rfl (fun k _ => rfl)

/-- Claim C3 counterexample: with the protocol mutex poisoned,
`register_appbar` does not proceed best-effort — it aborts with a lock error
having issued no shell call at all (empty OS-call trace). -/
theorem C3_counterexample :
    (register_appbar ⟨false, true⟩ oscOk 1 0 0 100 30).1 =
        .error "Failed to lock APPBAR_LOCK" ∧
      (register_appbar ⟨false, true⟩ oscOk 1 0 0 100 30).2.2 = [] :=
  ⟨rfl, rfl⟩

/-- Claim C3 amended: while the protocol mutex is poisoned, `register_appbar`
and `update_appbar_position` abort with the error
`"Failed to lock APPBAR_LOCK"` without issuing any OS call, and
`unregister_appbar` does the same when a registration is believed active
(when none is, it still short-circuits to success before touching the lock). -/
theorem C3_poisoned_lock_aborts (st : AppbarState) (osc : ShellOracle)
    (hwnd x y width height : Int) (hp : st.lockPoisoned = true) :
    register_appbar st osc hwnd x y width height =
        (.error "Failed to lock APPBAR_LOCK", st, []) ∧
      update_appbar_position st osc hwnd x y width height =
        (.error "Failed to lock APPBAR_LOCK", st, []) ∧
      (st.registered = true →
        unregister_appbar st hwnd = (.error "Failed to lock APPBAR_LOCK", st, [])) ∧
      (st.registered = false →
        unregister_appbar st hwnd = (.ok (), st, [])) := by
  refine ⟨by simp [register_appbar, hp], ?_, ?_, ?_⟩
  · cases hr : st.registered <;>
      simp [update_appbar_position, register_appbar, hp, hr]
  · intro hr; simp [unregister_appbar, hp, hr]
  · intro hr; simp [unregister_appbar, hr]

/-- Witness for the amended C3 at both concrete registration states. -/
theorem C3_poisoned_lock_aborts_witness :
    register_appbar ⟨true, true⟩ oscOk 1 0 0 100 30 =
        (.error "Failed to lock APPBAR_LOCK", ⟨true, true⟩, []) ∧
      update_appbar_position ⟨true, true⟩ oscOk 1 0 0 100 30 =
        (.error "Failed to lock APPBAR_LOCK", ⟨true, true⟩, []) ∧
      unregister_appbar (⟨true, true⟩ : AppbarState) 1 =
        (.error "Failed to lock APPBAR_LOCK", ⟨true, true⟩, []) ∧
      unregister_appbar (⟨false, true⟩ : AppbarState) 1 =
        (.ok (), ⟨false, true⟩, []) :=
  ⟨(C3_poisoned_lock_aborts ⟨true, true⟩ oscOk 1 0 0 100 30 rfl).1,
   (C3_poisoned_lock_aborts ⟨true, true⟩ oscOk 1 0 0 100 30 rfl).2.1,
   (C3_poisoned_lock_aborts ⟨true, true⟩ oscOk 1 0 0 100 30 rfl).2.2.1 rfl,
   (C3_poisoned_lock_aborts ⟨false, true⟩ oscOk 1 0 0 100 30 rfl).2.2.2 rfl⟩

/-- Claim C4: calling `unregister_appbar` while no registration is believed
active returns success, issues no OS call, and leaves the state unchanged. -/
theorem C4_unregister_idempotent (st : AppbarState) (hwnd : Int)
    (h : st.registered = false) :
    unregister_appbar st hwnd = (.ok (), st, []) := by
  simp [unregister_appbar, h]

/-- Witness for C4 at the idle state. -/
theorem C4_unregister_idempotent_witness :
    unregister_appbar astIdle 5 = (.ok (), astIdle, []) :=
  C4_unregister_idempotent astIdle 5 rfl

/-- Claim C5: a watcher poll cycle that observes `appbar_transition = true`
performs no register or unregister call and leaves both the shared taskbar
state and the appbar state unchanged — its entire effect is a 200 ms sleep
before retrying. -/
theorem C5_watcher_pauses (ts : TaskbarState) (ast : AppbarState)
    (o : WatcherOracle) (h : ts.appbar_transition = true) :
    watcherCycle ts ast o = (ts, ast, [OSEvent.sleep 200]) := by
  simp [watcherCycle, h]

/-- Witness for C5 with the transition flag set and a fullscreen-reporting
oracle. -/
theorem C5_watcher_pauses_witness :
    watcherCycle ⟨none, false, true⟩ astIdle watchO =
      (⟨none, false, true⟩, astIdle, [OSEvent.sleep 200]) :=
  C5_watcher_pauses ⟨none, false, true⟩ astIdle watchO rfl

/-- Claim C2 counterexample: `set_taskbar_monitor` records the requested
rectangle into the shared bounds *before* attempting registration, so when
every `ABM_NEW` fails, the call returns the registration error with
`bounds = some (0, 0, 1920, 28)` — a rectangle whose registration failed is
left recorded, and the registered flag confirms nothing was reserved. -/
theorem C2_counterexample :
    (set_taskbar_monitor ⟨none, false, false⟩ astIdle cmdFailO "0:0:1920:1080" none).1 =
        .error "Failed to register AppBar" ∧
      (set_taskbar_monitor ⟨none, false, false⟩ astIdle cmdFailO "0:0:1920:1080" none).2.1.bounds =
        some (0, 0, 1920, 28) ∧
      (set_taskbar_monitor ⟨none, false, false⟩ astIdle cmdFailO "0:0:1920:1080" none).2.2.1.registered =
        false :=
  ⟨rfl, rfl, rfl⟩

/-- Claim C2 amended: `bounds` records the rectangle the command *requested*,
not the one the shell granted — `set_taskbar_monitor` writes the target
rectangle into the shared bounds before calling `register_appbar`, so after
the command (once the window is found, the monitor resolves, both window
calls succeed and the bounds lock is healthy) `bounds` holds the requested
rectangle regardless of whether the registration succeeded or failed. -/
theorem C2_bounds_records_request (ts : TaskbarState) (ast : AppbarState)
    (o : CmdOracle) (sel : String) (bh : Option Nat) (target : MonitorInfo)
    (hw : o.windowFound = true)
    (hres : resolveMonitor o.monitors sel = .ok target)
    (hpos : o.setPositionRes = .ok ())
    (hsize : o.setSizeRes = .ok ())
    (hlk : o.boundsLockOk = true) :
    (set_taskbar_monitor ts ast o sel bh).2.1.bounds =
      some (target.x, target.y, target.width, bh.getD 28) := by
  by_cases hh : o.hwndOk <;>
    simp [set_taskbar_monitor, hw, hres, hpos, hsize, hlk, hh, dropTransitionGuard]

/-- Witness for the amended C2: the failing registration of the
counterexample oracle still leaves the requested rectangle recorded. -/
theorem C2_bounds_records_request_witness :
    (set_taskbar_monitor ⟨none, false, false⟩ astIdle cmdFailO "0:0:1920:1080" none).2.1.bounds =
      some (0, 0, 1920, 28) :=
  C2_bounds_records_request ⟨none, false, false⟩ astIdle cmdFailO
    "0:0:1920:1080" none monA rfl rfl rfl rfl rfl

/-- Claim C7: `update_appbar_position` delegates to `register_appbar` when no
registration is believed active; otherwise it queries and sets in place, and
a zero `ABM_SETPOS` return clears the registered flag and falls back to a
full `register_appbar` cycle, while a nonzero return succeeds in place with
no re-registration (no further `ABM_NEW`), leaving the state unchanged. -/
theorem C7_update_dispatch (st : AppbarState) (osc : ShellOracle)
    (hwnd x y width height : Int) :
    (st.registered = false →
       update_appbar_position st osc hwnd x y width height =
         register_appbar st osc hwnd x y width height) ∧
    (st.registered = true → st.lockPoisoned = false →
       ((osc.setPos { osc.queryPos ⟨x, y, x + width, y + height⟩ with
            bottom := (osc.queryPos ⟨x, y, x + width, y + height⟩).top + height }).1 = 0 →
          update_appbar_position st osc hwnd x y width height =
            ((register_appbar { st with registered := false } osc hwnd x y width height).1,
             (register_appbar { st with registered := false } osc hwnd x y width height).2.1,
             [OSEvent.abmQueryPos ⟨x, y, x + width, y + height⟩,
              OSEvent.abmSetPos { osc.queryPos ⟨x, y, x + width, y + height⟩ with
                bottom := (osc.queryPos ⟨x, y, x + width, y + height⟩).top + height } 0] ++
               (register_appbar { st with registered := false } osc hwnd x y width height).2.2)) ∧
       ((osc.setPos { osc.queryPos ⟨x, y, x + width, y + height⟩ with
            bottom := (osc.queryPos ⟨x, y, x + width, y + height⟩).top + height }).1 ≠ 0 →
          update_appbar_position st osc hwnd x y width height =
            (.ok (), st,
             [OSEvent.abmQueryPos ⟨x, y, x + width, y + height⟩,
              OSEvent.abmSetPos { osc.queryPos ⟨x, y, x + width, y + height⟩ with
                bottom := (osc.queryPos ⟨x, y, x + width, y + height⟩).top + height }
                (osc.setPos { osc.queryPos ⟨x, y, x + width, y + height⟩ with
                  bottom := (osc.queryPos ⟨x, y, x + width, y + height⟩).top + height }).1,
              OSEvent.setWindowPos
                (osc.setPos { osc.queryPos ⟨x, y, x + width, y + height⟩ with
                  bottom := (osc.queryPos ⟨x, y, x + width, y + height⟩).top + height }).2.left
                (osc.setPos { osc.queryPos ⟨x, y, x + width, y + height⟩ with
                  bottom := (osc.queryPos ⟨x, y, x + width, y + height⟩).top + height }).2.top
                ((osc.setPos { osc.queryPos ⟨x, y, x + width, y + height⟩ with
                    bottom := (osc.queryPos ⟨x, y, x + width, y + height⟩).top + height }).2.right -
                  (osc.setPos { osc.queryPos ⟨x, y, x + width, y + height⟩ with
                    bottom := (osc.queryPos ⟨x, y, x + width, y + height⟩).top + height }).2.left)
                ((osc.setPos { osc.queryPos ⟨x, y, x + width, y + height⟩ with
                    bottom := (osc.queryPos ⟨x, y, x + width, y + height⟩).top + height }).2.bottom -
                  (osc.setPos { osc.queryPos ⟨x, y, x + width, y + height⟩ with
                    bottom := (osc.queryPos ⟨x, y, x + width, y + height⟩).top + height }).2.top)]))) := by
  refine ⟨fun h => by simp [update_appbar_position, h], fun hr hl => ⟨fun hsp => ?_, fun hsp => ?_⟩⟩
  · simp [update_appbar_position, hr, hl, hsp]
  · simp [update_appbar_position, hr, hl, hsp]

/-- Witness for C7 covering all three dispatch paths at concrete inputs:
delegation when unregistered, fallback on a zero `ABM_SETPOS`, and in-place
success on a nonzero one. -/
theorem C7_update_dispatch_witness :
    update_appbar_position astIdle oscOk 1 0 0 100 30 =
        register_appbar astIdle oscOk 1 0 0 100 30 ∧
      update_appbar_position astActive oscSetPosZero 1 0 0 100 30 =
        ((register_appbar ⟨false, false⟩ oscSetPosZero 1 0 0 100 30).1,
         (register_appbar ⟨false, false⟩ oscSetPosZero 1 0 0 100 30).2.1,
         [OSEvent.abmQueryPos ⟨0, 0, 100, 30⟩, OSEvent.abmSetPos ⟨0, 0, 100, 30⟩ 0] ++
           (register_appbar ⟨false, false⟩ oscSetPosZero 1 0 0 100 30).2.2) ∧
      update_appbar_position astActive oscOk 1 0 0 100 30 =
        (.ok (), astActive,
         [OSEvent.abmQueryPos ⟨0, 0, 100, 30⟩, OSEvent.abmSetPos ⟨0, 0, 100, 30⟩ 1,
          OSEvent.setWindowPos 0 0 100 30]) := by
  refine ⟨(C7_update_dispatch astIdle oscOk 1 0 0 100 30).1 rfl, ?_, ?_⟩
  · simpa using ((C7_update_dispatch astActive oscSetPosZero 1 0 0 100 30).2 rfl rfl).1 rfl
  · simpa using ((C7_update_dispatch astActive oscOk 1 0 0 100 30).2 rfl rfl).2 (by decide)

/-- Claim C10: on every exit path of `set_taskbar_monitor` and
`preview_taskbar_height` — including each early error return — the
`TransitionGuard` drop has cleared `appbar_transition`, so the watcher is
never left permanently paused by a failed command. -/
theorem C10_transition_always_cleared (ts : TaskbarState) (ast : AppbarState)
    (o : CmdOracle) (sel : String) (bh : Option Nat) (ph : Nat)
    (ua : Option Bool) :
    (set_taskbar_monitor ts ast o sel bh).2.1.appbar_transition = false ∧
      (preview_taskbar_height ts ast o ph ua).2.1.appbar_transition = false := by
  constructor
  · by_cases hw : o.windowFound
    · cases hres : resolveMonitor o.monitors sel <;>
        cases hpr : o.setPositionRes <;>
        cases hsr : o.setSizeRes <;>
        by_cases hh : o.hwndOk <;>
        by_cases hb : o.boundsLockOk <;>
        simp [set_taskbar_monitor, hw, hres, hpr, hsr, hh, hb, dropTransitionGuard]
    · simp [set_taskbar_monitor, hw, dropTransitionGuard]
  · by_cases hw : o.windowFound
    · cases hsr : o.setSizeRes <;>
        by_cases hb : o.boundsLockOk <;>
        by_cases hc : ((ua.getD false : Bool) ∧ o.hwndOk) <;>
        simp [preview_taskbar_height, hw, hsr, hb, hc, dropTransitionGuard]
    · simp [preview_taskbar_height, hw, dropTransitionGuard]

/-- Claim C6: monitor-selector resolution first attempts an exact match on
the stable id; failing that, a selector of the legacy form
`"monitor_<index>"` with a valid in-range integer index resolves positionally;
every other case — no legacy form, an unparsable index, or an out-of-range
index — fails with the not-found error. -/
theorem C6_selector_resolution (monitors : List MonitorInfo) (sel : String) :
    ((∃ m ∈ monitors, m.id = sel) →
       ∃ m, resolveMonitor monitors sel = .ok m ∧ m ∈ monitors ∧ m.id = sel) ∧
    ((∀ m ∈ monitors, m.id ≠ sel) →
       (∀ idxStr idx, stripPfx "monitor_" sel = some idxStr →
          parseUsize idxStr = some idx →
          ∀ hm : idx < monitors.length,
            resolveMonitor monitors sel = .ok (monitors.get ⟨idx, hm⟩)) ∧
       (∀ idxStr idx, stripPfx "monitor_" sel = some idxStr →
          parseUsize idxStr = some idx → monitors.length ≤ idx →
          resolveMonitor monitors sel = .error "Monitor not found") ∧
       (∀ idxStr, stripPfx "monitor_" sel = some idxStr →
          parseUsize idxStr = none →
          resolveMonitor monitors sel = .error "Monitor not found") ∧
       (stripPfx "monitor_" sel = none →
          resolveMonitor monitors sel = .error "Monitor not found")) := by
  constructor
  · rintro ⟨m, hm, hid⟩
    have hsome : (monitors.find? (fun m' => m'.id == sel)).isSome :=
      List.find?_isSome.mpr ⟨m, hm, by simp [hid]⟩
    obtain ⟨m', hfind⟩ := Option.isSome_iff_exists.mp hsome
    refine ⟨m', by simp [resolveMonitor, hfind], List.mem_of_find?_eq_some hfind, ?_⟩
    simpa using List.find?_some hfind
  · intro hne
    have hnone : monitors.find? (fun m' => m'.id == sel) = none :=
      List.find?_eq_none.mpr (fun m hm => by simp [hne m hm])
    refine ⟨?_, ?_, ?_, ?_⟩
    · intro idxStr idx hstrip hparse hm
      simp [resolveMonitor, hnone, hstrip, hparse, List.getElem?_eq_getElem hm]
    · intro idxStr idx hstrip hparse hge
      simp [resolveMonitor, hnone, hstrip, hparse, List.getElem?_eq_none hge]
    · intro idxStr hstrip hparse
      simp [resolveMonitor, hnone, hstrip, hparse]
    · intro hstrip
      simp [resolveMonitor, hnone, hstrip]

/-- Witness for C6 covering all resolution paths on a two-monitor
enumeration: exact id match, in-range legacy index, out-of-range legacy
index, unparsable legacy index, and a selector with no legacy form. -/
theorem C6_selector_resolution_witness :
    (∃ m, resolveMonitor monitorsW "1920:0:1280:1024" = .ok m ∧
        m ∈ monitorsW ∧ m.id = "1920:0:1280:1024") ∧
      resolveMonitor monitorsW "monitor_1" = .ok (monitorsW.get ⟨1, by decide⟩) ∧
      resolveMonitor monitorsW "monitor_7" = .error "Monitor not found" ∧
      resolveMonitor monitorsW "monitor_x" = .error "Monitor not found" ∧
      resolveMonitor monitorsW "displayB" = .error "Monitor not found" := by
  refine ⟨(C6_selector_resolution monitorsW "1920:0:1280:1024").1
      ⟨monB, by decide, rfl⟩, ?_, ?_, ?_, ?_⟩
  · exact ((C6_selector_resolution monitorsW "monitor_1").2 (by decide)).1
      "1" 1 (by decide) (by decide) (by decide)
  · exact ((C6_selector_resolution monitorsW "monitor_7").2 (by decide)).2.1
      "7" 7 (by decide) (by decide) (by decide)
  · exact ((C6_selector_resolution monitorsW "monitor_x").2 (by decide)).2.2.1
      "x" (by decide) (by decide)
  · exact ((C6_selector_resolution monitorsW "displayB").2 (by decide)).2.2.2
      (by decide)

/-- Every node of the examined ancestor chain that is the bar's handle or is
owned by this process makes the bounded walk report "own window". -/
theorem walkLoop_of_chain_mem (o : FsOracle) (barHwnd : Int) :
    ∀ (fuel : Nat) (c : Int),
      (∃ d ∈ ancestorChain o fuel c,
          d = barHwnd ∨ (o.pidOf d ≠ 0 ∧ o.pidOf d = o.currentPid)) →
      walkLoop o barHwnd fuel c = none := by
  intro fuel
  induction fuel with
  | zero => intro c h; simp [ancestorChain] at h
  | succ n ih =>
    intro c h
    by_cases h1 : c = barHwnd
    · simp [walkLoop, h1]
    · by_cases h2 : o.pidOf c ≠ 0 ∧ o.pidOf c = o.currentPid
      · simp only [walkLoop]
        rw [if_neg h1, if_pos h2]
      · obtain ⟨d, hd, hown⟩ := h
        cases hp : o.parent c with
        | none =>
          simp [ancestorChain, hp] at hd
          subst hd
          rcases hown with hc | hc
          · exact absurd hc h1
          · exact absurd hc h2
        | some p =>
          simp [ancestorChain, hp] at hd
          rcases hd with hd | hd
          · subst hd
            rcases hown with hc | hc
            · exact absurd hc h1
            · exact absurd hc h2
          · simp only [walkLoop]
            rw [if_neg h1, if_neg h2]
            simpa [hp] using ih p ⟨d, hd, hown⟩

/-- The examined ancestor chain respects the hop bound. -/
theorem ancestorChain_length_le (o : FsOracle) :
    ∀ (fuel : Nat) (c : Int), (ancestorChain o fuel c).length ≤ fuel := by
  intro fuel
  induction fuel with
  | zero => intro c; simp [ancestorChain]
  | succ n ih =>
    intro c
    cases hp : o.parent c <;> simp [ancestorChain, hp]
    exact ih _

/-- Claim C8: whenever the examined ancestor chain of the foreground window
(the walk is cut off after 32 hops, so the chain examined has at most 32
nodes) contains the bar's own handle or a window owned by this process,
`is_foreground_fullscreen` returns `false` regardless of the window's
geometry, visibility or monitor. -/
theorem C8_own_window_not_fullscreen (o : FsOracle) (barHwnd fgRaw : Int)
    (hfg : o.fgWindow = some fgRaw)
    (h : ∃ d ∈ ancestorChain o 32 fgRaw,
        d = barHwnd ∨ (o.pidOf d ≠ 0 ∧ o.pidOf d = o.currentPid)) :
    is_foreground_fullscreen o barHwnd = false ∧
      (ancestorChain o 32 fgRaw).length ≤ 32 :=
  ⟨by simp [is_foreground_fullscreen, hfg, walkLoop_of_chain_mem o barHwnd 32 fgRaw h],
   ancestorChain_length_le o 32 fgRaw⟩

/-- A window-system oracle whose foreground window (handle 5) is a perfectly
fullscreen-shaped window owned by the bar's own process (pid 7). -/
def fsOwnO : FsOracle :=
  { fgWindow := some 5
    currentPid := 7
    pidOf := fun _ => 7
    parent := fun _ => none
    visible := fun _ => true
    placementOk := fun _ => true
    showCmd := fun _ => 1
    rectOf := fun _ => some ⟨0, 0, 1920, 1080⟩
    monitorOf := fun _ => 0
    monitorRect := fun _ => some ⟨0, 0, 1920, 1080⟩ }

/-- Witness for C8: the fullscreen-shaped foreground window owned by this
process is not classified as fullscreen. -/
theorem C8_own_window_not_fullscreen_witness :
    is_foreground_fullscreen fsOwnO 1 = false ∧
      (ancestorChain fsOwnO 32 5).length ≤ 32 :=
  C8_own_window_not_fullscreen fsOwnO 1 5 rfl
    ⟨5, by simp [ancestorChain, fsOwnO], Or.inr (by simp [fsOwnO])⟩

/-- Element `n` of the enumeration map is the info of raw monitor `n`,
built with the running index. -/
theorem listMonitorsAux_get? (p : Option RawMonitor) :
    ∀ (ms : List RawMonitor) (k n : Nat),
      (listMonitorsAux p k ms).get? n = (ms.get? n).map (monitorInfoOf p (k + n)) := by
  intro ms
  induction ms with
  | nil => intro k n; simp [listMonitorsAux]
  | cons m rest ih =>
    intro k n
    cases n with
    | zero => simp [listMonitorsAux]
    | succ n' =>
      have hk : k + 1 + n' = k + (n' + 1) := by omega
      calc (listMonitorsAux p k (m :: rest)).get? (n' + 1)
          = (listMonitorsAux p (k + 1) rest).get? n' := by
            simp [listMonitorsAux]
        _ = (rest.get? n').map (monitorInfoOf p (k + 1 + n')) := ih (k + 1) n'
        _ = ((m :: rest).get? (n' + 1)).map (monitorInfoOf p (k + (n' + 1))) := by
            rw [hk, List.get?_cons_succ]

/-- Claim C9: the stable id of a monitor is a function of its position and
size only — for two enumerations (with arbitrary reported primaries) holding
physically identical monitors at different positions in the sequence, the
produced ids coincide. -/
theorem C9_stable_id_position_only (p1 p2 : Option RawMonitor)
    (ms1 ms2 : List RawMonitor) (i j : Nat) (m1 m2 : RawMonitor)
    (h1 : ms1.get? i = some m1) (h2 : ms2.get? j = some m2)
    (hx : m1.posX = m2.posX) (hy : m1.posY = m2.posY)
    (hw : m1.width = m2.width) (hh : m1.height = m2.height) :
    ∃ info1 info2,
      (list_monitors_for p1 ms1).get? i = some info1 ∧
        (list_monitors_for p2 ms2).get? j = some info2 ∧
        info1.id = info2.id := by
  refine ⟨monitorInfoOf p1 i m1, monitorInfoOf p2 j m2, ?_, ?_, ?_⟩
  · show (listMonitorsAux p1 0 ms1).get? i = _
    rw [listMonitorsAux_get? p1 ms1 0 i, h1]
    simp
  · show (listMonitorsAux p2 0 ms2).get? j = _
    rw [listMonitorsAux_get? p2 ms2 0 j, h2]
    simp
  · simp [monitorInfoOf, stableId, hx, hy, hw, hh]

/-- Two raw two-monitor enumerations listing the same physical monitors in
opposite orders. -/
def rawMs1 : List RawMonitor :=
  [⟨some "A", 0, 0, 1920, 1080⟩, ⟨none, 1920, 0, 1280, 1024⟩]

/-- The same monitors as `rawMs1`, enumerated in the opposite order. -/
def rawMs2 : List RawMonitor :=
  [⟨none, 1920, 0, 1280, 1024⟩, ⟨some "A", 0, 0, 1920, 1080⟩]

/-- Witness for C9: the 1920x1080 monitor keeps its id when it moves from
position 0 of one enumeration to position 1 of the other, under different
reported primaries. -/
theorem C9_stable_id_position_only_witness :
    ∃ info1 info2,
      (list_monitors_for (some ⟨some "A", 0, 0, 1920, 1080⟩) rawMs1).get? 0 = some info1 ∧
        (list_monitors_for none rawMs2).get? 1 = some info2 ∧
        info1.id = info2.id :=
  C9_stable_id_position_only (some ⟨some "A", 0, 0, 1920, 1080⟩) none
    rawMs1 rawMs2 0 1 ⟨some "A", 0, 0, 1920, 1080⟩ ⟨some "A", 0, 0, 1920, 1080⟩
    rfl rfl rfl rfl rfl rfl

end BarDock
